import Mathlib

/-!
# Verification of the durable order-orchestration core

A shallow embedding of the order-processing workflow
(`workflows.OrderWorkflow`, `workflows.PaymentWorkflow`, the
`activities.OrderActivities` methods and the `models` package) together
with proofs of the behavioural properties stated in the specification.

The workflow code runs on a durable-execution engine (deterministic
replay, signal channels, activity retry).  The orchestration logic is
translated from the source; the engine-level contracts the source relies
on (version-gate resolution, cooperative coroutine scheduling for signal
handlers, per-step retry) are modelled from the specification, which
defines exactly those contracts while leaving the engine itself a
non-goal.
-/

namespace OrderProcessing

/-! ## Data model (`models/order.go`) -/

/-- An order handed to the saga.  The monetary amount carries no
arithmetic in the orchestration logic, so it is modelled as an integer
number of currency units. -/
structure Order where
  id : String
  items : List String
  amount : Int
  status : String
  createdAt : Nat
deriving DecidableEq, Repr

/-- Order statuses (`models.Status*`). -/
def StatusPending : String := "pending"

/-- Constant `models.StatusValidating`. -/
def StatusValidating : String := "validating"

/-- Constant `models.StatusProcessing`. -/
def StatusProcessing : String := "processing"

/-- Constant `models.StatusCompleted`. -/
def StatusCompleted : String := "completed"

/-- Constant `models.StatusCancelled`. -/
def StatusCancelled : String := "cancelled"

/-- Constant `models.StatusFailed`. -/
def StatusFailed : String := "failed"

/-- Stages (`models.Stage*`). -/
def StageValidation : String := "validation"

/-- Constant `models.StagePayment`. -/
def StagePayment : String := "payment"

/-- Constant `models.StageProcessing`. -/
def StageProcessing : String := "processing"

/-- Constant `models.StageCompleted`. -/
def StageCompleted : String := "completed"

/-- The status projection (`models.OrderStatus`).  The `LastUpdated`
timestamp field is modelled by `Event.touch` entries in the execution
trace rather than by a wall-clock value, so that the timestamp-update
discipline is a trace property. -/
structure OrderStatus where
  orderID : String
  status : String
  stage : String
  isExpedited : Bool
  paymentStatus : String
deriving DecidableEq, Repr

/-- Struct `models.ValidationResponse`. -/
structure ValidationResponse where
  valid : Bool
  message : String
deriving DecidableEq, Repr

/-- Struct `models.PaymentRequest`. -/
structure PaymentRequest where
  orderID : String
  amount : Int
deriving DecidableEq, Repr

/-- Struct `models.PaymentResponse`. -/
structure PaymentResponse where
  success : Bool
  transactionID : String
  message : String
deriving DecidableEq, Repr

/-! ## Activities (`activities/activities.go`) -/

/-- Outcome of the one HTTP round trip `ValidateOrder` performs:
either the transport fails (connection error / client timeout, i.e.
`HTTPClient.Do` returns an error), or a response with a status code
arrives; a 200 response body decodes to a `ValidationResponse`, and
`raw` is the body text used in the non-200 error message. -/
inductive HttpOutcome where
  | transportError (msg : String)
  | response (statusCode : Nat) (body : ValidationResponse) (raw : String)
deriving DecidableEq, Repr

/-- Activity `OrderActivities.ValidateOrder`: a transport failure or a non-200
status is an activity error (retryable); a 200 response is a successful
activity completion carrying the decoded `ValidationResponse`, whatever
its `valid` field says. -/
def validateOrderActivity (o : HttpOutcome) : Except String ValidationResponse :=
  match o with
  | .transportError m => .error ("failed to call validation service: " ++ m)
  | .response statusCode body raw =>
      if statusCode = 200 then .ok body
      else .error ("validation service returned status " ++ toString statusCode ++ ": " ++ raw)

/-- Activity `OrderActivities.ProcessPayment`: always succeeds, with a mock
transaction id built from the order id and the wall-clock Unix time
`now` at which the activity runs. -/
def ProcessPayment (req : PaymentRequest) (now : Nat) : Except String PaymentResponse :=
  .ok { success := true
        transactionID := "TXN-" ++ req.orderID ++ "-" ++ toString now
        message := "Payment processed successfully" }

/-- Step-level execution of the `ProcessPayment` activity.  The activity
function itself never fails, but the engine-level call can (timeout,
retries exhausted): `outcome` is `.error e` for such a failure and
`.ok now` when the activity actually ran at wall-clock time `now`. -/
def callProcessPayment (req : PaymentRequest) (outcome : Except String Nat) :
    Except String PaymentResponse :=
  match outcome with
  | .error e => .error e
  | .ok now => ProcessPayment req now

/-! ## Payment child workflow (`workflows/payment_workflow.go`) -/

/-- Workflow `workflows.PaymentWorkflow`: builds a `PaymentRequest` from the
order's id and amount and executes the `ProcessPayment` activity,
returning its response or propagating the failure. -/
def PaymentWorkflow (order : Order) (outcome : Except String Nat) :
    Except String PaymentResponse :=
  let paymentReq : PaymentRequest := { orderID := order.id, amount := order.amount }
  callProcessPayment paymentReq outcome

/-! ## Version gate -/

/-- The two branches at the `payment-processing-change` decision point:
`legacy` is `workflow.DefaultVersion` (direct activity call), `current`
is version 2 (child-workflow delegation). -/
inductive Branch where
  | legacy
  | current
deriving DecidableEq, Repr

/-- Modelled from the spec: the Version Gate `resolve` contract of the
durable-execution engine (`workflow.GetVersion`, not part of this
repository).  Given the marker recorded in the instance's history (if
any) and the running code's latest branch, it returns the branch to take
and the marker afterwards: with no marker it records and returns the
latest branch; with a marker it returns the recorded branch unchanged. -/
def resolveVersion (marker : Option Branch) (latest : Branch) : Branch × Option Branch :=
  match marker with
  | none => (latest, some latest)
  | some b => (b, some b)

/-! ## Signal scheduling -/

/-- Modelled from the spec: the engine's cooperative scheduling of the
signal-handler coroutines started with `workflow.Go`.  A handler
coroutine first runs when the main coroutine blocks at a suspension
point (an awaited step), so a delivered signal is observed by the main
logic only after some suspension completes.  A schedule `some j` means
the signal is consumed by its handler while the main coroutine is
blocked at its `(j+1)`-th suspension point (suspension points are
numbered from 1 in program order); `none` means the signal never
arrives.  `setBy arrival k` is the handler-owned flag's value at a main
program point reached after `k` completed suspensions. -/
def setBy (arrival : Option Nat) (k : Nat) : Bool :=
  match arrival with
  | none => false
  | some j => decide (j < k)

/-! ## The order workflow (`workflows/order_workflow.go`) -/

/-- The steps the workflow can await (each is a suspension point). -/
inductive StepName where
  | validateOrder
  | processPaymentActivity
  | paymentChildWorkflow
  | processOrder
  | notifyOrderComplete
deriving DecidableEq, Repr

/-- Fields of the status projection mutated by the workflow. -/
inductive Field where
  | status
  | stage
  | isExpedited
  | paymentStatus
deriving DecidableEq, Repr

/-- Observable events of a workflow execution: a projection-field
assignment, an assignment of `LastUpdated := workflow.Now(ctx)`, and the
start of an awaited step (a suspension point). -/
inductive Event where
  | mutate (f : Field)
  | touch
  | invoke (s : StepName)
deriving DecidableEq, Repr

/-- Events emitted by the expedite signal handler while the main
coroutine is blocked at its `k`-th suspension point: the handler sets
`state.IsExpedited = true` and then `state.LastUpdated`. -/
def expediteHandlerEvents (arrival : Option Nat) (k : Nat) : List Event :=
  match arrival with
  | none => []
  | some j => if j + 1 = k then [Event.mutate Field.isExpedited, Event.touch] else []

/-- All the external inputs one execution of `OrderWorkflow` consumes:
the result of registering the query handler, the (post-retry) results of
the awaited steps, the wall-clock time of the payment activity run, the
version marker present in the instance's history, and the arrival
schedules of the two signals. -/
structure Env where
  queryReg : Except String Unit
  validation : Except String ValidationResponse
  paymentActivity : Except String Nat
  fulfill : Except String Unit
  notify : Except String Unit
  recordedVersion : Option Branch
  cancelArrival : Option Nat
  expediteArrival : Option Nat

/-- The branch the version gate resolves for this execution: the
source calls `workflow.GetVersion(ctx, "payment-processing-change",
workflow.DefaultVersion, 2)`, whose latest branch is the child-workflow
one. -/
def paymentBranch (env : Env) : Branch :=
  (resolveVersion env.recordedVersion Branch.current).fst

/-- The step awaited by the payment stage on each branch. -/
def paymentStepName (b : Branch) : StepName :=
  match b with
  | Branch.legacy => StepName.processPaymentActivity
  | Branch.current => StepName.paymentChildWorkflow

/-- The `PaymentResponse` (or failure) the payment stage delivers to the
downstream workflow logic: the legacy branch builds a `PaymentRequest`
from the order's id and amount and awaits the `ProcessPayment` activity
directly; the current branch awaits the `PaymentWorkflow` child
workflow. -/
def paymentStepResult (order : Order) (env : Env) : Except String PaymentResponse :=
  match paymentBranch env with
  | Branch.legacy =>
      callProcessPayment { orderID := order.id, amount := order.amount } env.paymentActivity
  | Branch.current => PaymentWorkflow order env.paymentActivity

/-- The observable outcome of one `OrderWorkflow` execution: the
workflow's return value, the final status projection, the event trace,
and the expedite flag value passed to the `ProcessOrder` step (none if
that step was never invoked). -/
structure WfResult where
  result : Except String Unit
  state : OrderStatus
  trace : List Event
  processOrderArg : Option Bool

/-- Shallow embedding of `workflows.OrderWorkflow`.  Control flow,
projection mutations and the three cancellation checkpoints follow the
source line by line; suspension points are numbered 1 (validation
await), 2 (payment await), 3 (fulfillment await), 4 (notification
await), and the cancel/expedite flags read by the main logic are
computed from the signal-arrival schedules via `setBy`. -/
def runOrderWorkflow (order : Order) (env : Env) : WfResult :=
  let state0 : OrderStatus :=
    { orderID := order.id
      status := StatusPending
      stage := StageValidation
      isExpedited := false
      paymentStatus := "pending" }
  match env.queryReg with
  | .error e => ⟨.error e, state0, [], none⟩
  | .ok _ =>
  -- checkpoint 1: before validation begins (0 suspensions completed)
  if setBy env.cancelArrival 0 then
    ⟨.ok (), { state0 with status := StatusCancelled },
      [Event.mutate Field.status, Event.touch], none⟩
  else
  -- Step 1: Validate Order
  let tValidate : List Event :=
    [Event.mutate Field.status, Event.mutate Field.stage, Event.touch,
     Event.invoke StepName.validateOrder] ++ expediteHandlerEvents env.expediteArrival 1
  let s1 : OrderStatus :=
    { state0 with
        status := StatusValidating
        stage := StageValidation
        isExpedited := setBy env.expediteArrival 1 }
  match env.validation with
  | .error e =>
      ⟨.error e, { s1 with status := StatusFailed },
        tValidate ++ [Event.mutate Field.status, Event.touch], none⟩
  | .ok v =>
  if !v.valid then
    ⟨.error ("order validation failed: " ++ v.message), { s1 with status := StatusFailed },
      tValidate ++ [Event.mutate Field.status, Event.touch], none⟩
  else
  -- checkpoint 2: after validation succeeds (1 suspension completed)
  if setBy env.cancelArrival 1 then
    ⟨.ok (), { s1 with status := StatusCancelled },
      tValidate ++ [Event.mutate Field.status, Event.touch], none⟩
  else
  -- Step 2: payment, branch resolved by the version gate
  let tPay : List Event :=
    [Event.mutate Field.stage, Event.touch, Event.invoke (paymentStepName (paymentBranch env))]
      ++ expediteHandlerEvents env.expediteArrival 2
  let s2 : OrderStatus :=
    { s1 with
        stage := StagePayment
        isExpedited := setBy env.expediteArrival 2 }
  match paymentStepResult order env with
  | .error e =>
      ⟨.error e, { s2 with status := StatusFailed, paymentStatus := "failed" },
        tValidate ++ tPay
          ++ [Event.mutate Field.status, Event.mutate Field.paymentStatus, Event.touch], none⟩
  | .ok _presp =>
  -- state.PaymentStatus = "completed" (the source has no timestamp
  -- update here; the next touch happens before the next suspension)
  let s3 : OrderStatus := { s2 with paymentStatus := "completed" }
  -- checkpoint 3: after payment succeeds (2 suspensions completed)
  if setBy env.cancelArrival 2 then
    ⟨.ok (), { s3 with status := StatusCancelled },
      tValidate ++ tPay
        ++ [Event.mutate Field.paymentStatus, Event.mutate Field.status, Event.touch], none⟩
  else
  -- Step 3: Process Order, expedite flag read once at step start
  let expeditedArg := setBy env.expediteArrival 2
  let tFulfill : List Event :=
    [Event.mutate Field.paymentStatus, Event.mutate Field.status, Event.mutate Field.stage,
     Event.touch, Event.invoke StepName.processOrder]
      ++ expediteHandlerEvents env.expediteArrival 3
  let s4 : OrderStatus :=
    { s3 with
        status := StatusProcessing
        stage := StageProcessing
        isExpedited := setBy env.expediteArrival 3 }
  match env.fulfill with
  | .error e =>
      ⟨.error e, { s4 with status := StatusFailed },
        tValidate ++ tPay ++ tFulfill ++ [Event.mutate Field.status, Event.touch],
        some expeditedArg⟩
  | .ok _ =>
  -- Step 4: Notify completion; its failure is logged only
  let tNotify : List Event :=
    [Event.invoke StepName.notifyOrderComplete] ++ expediteHandlerEvents env.expediteArrival 4
  let s5 : OrderStatus := { s4 with isExpedited := setBy env.expediteArrival 4 }
  let finish : WfResult :=
    ⟨.ok (), { s5 with status := StatusCompleted, stage := StageCompleted },
      tValidate ++ tPay ++ tFulfill ++ tNotify
        ++ [Event.mutate Field.status, Event.mutate Field.stage, Event.touch],
      some expeditedArg⟩
  match env.notify with
  | .error _ => finish
  | .ok _ => finish

/-- A step was invoked during the execution. -/
def invoked (r : WfResult) (s : StepName) : Prop :=
  Event.invoke s ∈ r.trace

instance (r : WfResult) (s : StepName) : Decidable (invoked r s) :=
  inferInstanceAs (Decidable (_ ∈ _))

/-! ## Step executor retry -/

/-- Modelled from the spec: the Step Executor's retry loop.  `attempt i`
is the classified result of the `i`-th run of the step; a failed attempt
is retried while attempts remain, a successful one returns immediately,
and on exhaustion the last failure is surfaced unmodified.  Returns the
step's final result together with the number of attempts consumed. -/
def runAttempts (attempt : Nat → Except String α) : Nat → Nat → Except String α × Nat
  | i, 0 => (.error "no attempts permitted", i)
  | i, fuel + 1 =>
      match attempt i with
      | .ok a => (.ok a, i + 1)
      | .error e => if fuel = 0 then (.error e, i + 1) else runAttempts attempt (i + 1) fuel

/-- Modelled from the spec: execute a step under a RetryPolicy with the
given maximum attempt count, starting from attempt 0. -/
def executeWithRetry (maxAttempts : Nat) (attempt : Nat → Except String α) :
    Except String α × Nat :=
  runAttempts attempt 0 maxAttempts

/-- The validation step as the workflow runs it: the `ValidateOrder`
activity under the workflow's RetryPolicy (`MaximumAttempts: 3`), where
`http i` is the HTTP outcome the `i`-th attempt observes. -/
def runValidationStep (http : Nat → HttpOutcome) : Except String ValidationResponse × Nat :=
  executeWithRetry 3 (fun i => validateOrderActivity (http i))

/-- Modelled from the spec: the external validation collaborator, which
accepts any order strictly below the rejection threshold and rejects any
order at or above it with a message naming the exceeded maximum.  The
collaborator is external to this repository (a WireMock stub); the
threshold is kept as a parameter since the spec fixes only its
existence. -/
def specValidate (threshold amount : Int) : ValidationResponse :=
  if threshold ≤ amount then
    { valid := false, message := "Amount exceeds maximum allowed" }
  else
    { valid := true, message := "Order validated successfully" }

/-! ## Timestamp discipline -/

/-- Scans an event trace checking the projection's timestamp
discipline: after any field mutation, an update of `LastUpdated` (a
`touch`) must occur before the next suspension point (`invoke`) and
before the end of the trace.  `pending` records whether a mutation is
still awaiting its timestamp update. -/
def timestampDisciplined : Bool → List Event → Bool
  | pending, [] => !pending
  | _, Event.mutate _ :: rest => timestampDisciplined true rest
  | _, Event.touch :: rest => timestampDisciplined false rest
  | pending, Event.invoke _ :: rest => !pending && timestampDisciplined false rest

/-! ## Sample inputs used by the witnesses -/

/-- A concrete order (the spec's happy-path scenario). -/
def sampleOrder : Order :=
  { id := "ORD-1", items := ["a", "b"], amount := 100, status := StatusPending, createdAt := 0 }

/-- A validation response accepting the order. -/
def okValidation : ValidationResponse :=
  { valid := true, message := "Order validated successfully" }

/-- An environment in which every step succeeds and no signal arrives. -/
def happyEnv : Env :=
  { queryReg := .ok ()
    validation := .ok okValidation
    paymentActivity := .ok 5
    fulfill := .ok ()
    notify := .ok ()
    recordedVersion := none
    cancelArrival := none
    expediteArrival := none }

/-! ## Helper lemmas -/

/-- A signal-handler coroutine cannot have run before the first
suspension point, whatever the delivery schedule. -/
theorem setBy_zero (a : Option Nat) : setBy a 0 = false := by
  rcases a with _ | j <;> simp [setBy]

/-- The expedite handler never emits step invocations. -/
theorem invoke_not_mem_expediteHandlerEvents (s : StepName) (a : Option Nat) (k : Nat) :
    Event.invoke s ∉ expediteHandlerEvents a k := by
  rcases a with _ | j
  · simp [expediteHandlerEvents]
  · simp only [expediteHandlerEvents]
    split <;> simp

/-- The payment stage's awaited step is never the fulfillment step. -/
theorem processOrder_ne_paymentStepName (b : Branch) :
    ¬ StepName.processOrder = paymentStepName b := by
  cases b <;> simp [paymentStepName]

/-- The payment stage's awaited step is never the notification step. -/
theorem notify_ne_paymentStepName (b : Branch) :
    ¬ StepName.notifyOrderComplete = paymentStepName b := by
  cases b <;> simp [paymentStepName]

/-! ## Theorems -/

/-- C9: for every `PaymentRequest`, the `ProcessPayment` activity never
fails: it returns no error and a `PaymentResponse` with `Success=true`,
message "Payment processed successfully", and a `TransactionID`
beginning with "TXN-", the request's order id and "-". -/
theorem claim9_processPayment_never_fails (req : PaymentRequest) (now : Nat) :
    ∃ r, ProcessPayment req now = .ok r ∧ r.success = true ∧
      r.message = "Payment processed successfully" ∧
      r.transactionID = "TXN-" ++ req.orderID ++ "-" ++ toString now ∧
      ∃ rest, r.transactionID = "TXN-" ++ req.orderID ++ "-" ++ rest :=
  ⟨_, rfl, rfl, rfl, rfl, toString now, rfl⟩

/-- C7: the legacy payment branch (direct `ProcessPayment` activity
call on a `PaymentRequest` built from the order's id and amount) and the
current branch (delegation to `PaymentWorkflow` as a child workflow)
deliver the same `PaymentResponse` to the downstream logic, given the
same result from the underlying payment step; consequently two
executions differing only in the recorded branch agree on the workflow
result, the final projection, and the expedite value passed to
fulfillment. -/
theorem claim7_payment_branches_equivalent :
    (∀ (order : Order) (outcome : Except String Nat),
        callProcessPayment { orderID := order.id, amount := order.amount } outcome =
          PaymentWorkflow order outcome) ∧
    (∀ (order : Order) (env : Env),
        paymentStepResult order { env with recordedVersion := some Branch.legacy } =
          paymentStepResult order { env with recordedVersion := some Branch.current }) ∧
    ∀ (order : Order) (env : Env),
      (runOrderWorkflow order { env with recordedVersion := some Branch.legacy }).result =
          (runOrderWorkflow order { env with recordedVersion := some Branch.current }).result ∧
      (runOrderWorkflow order { env with recordedVersion := some Branch.legacy }).state =
          (runOrderWorkflow order { env with recordedVersion := some Branch.current }).state ∧
      (runOrderWorkflow order { env with recordedVersion := some Branch.legacy }).processOrderArg
        = (runOrderWorkflow order
            { env with recordedVersion := some Branch.current }).processOrderArg := by
  refine ⟨fun order outcome => rfl, fun order env => rfl, fun order env => ?_⟩
  obtain ⟨qr, val, pay, ful, nt, rv, ca, ea⟩ := env
  simp only [runOrderWorkflow, paymentStepResult, paymentBranch, paymentStepName,
    resolveVersion, PaymentWorkflow, callProcessPayment]
  refine ⟨?_, ?_, ?_⟩ <;>
    · repeat' split
      all_goals simp_all

/-- C2: an execution whose payment branch (whichever the version gate
chose) fails to produce a successful `PaymentResponse` terminates as a
failed saga: the projection shows status failed and payment_status
failed, the failure is returned as the workflow's result, and neither
the fulfillment step nor the notification step is ever invoked.  The
first conjunct records why "fails to produce a successful
`PaymentResponse`" coincides with a step-level failure here: a payment
step that completes at all delivers `Success=true`. -/
theorem claim2_payment_failure_is_fatal :
    (∀ (order : Order) (env : Env) (r : PaymentResponse),
        paymentStepResult order env = .ok r → r.success = true) ∧
    ∀ (order : Order) (env : Env) (v : ValidationResponse) (e : String),
      env.queryReg = .ok () →
      env.validation = .ok v →
      v.valid = true →
      setBy env.cancelArrival 1 = false →
      paymentStepResult order env = .error e →
      (runOrderWorkflow order env).result = .error e ∧
      (runOrderWorkflow order env).state.status = StatusFailed ∧
      (runOrderWorkflow order env).state.paymentStatus = "failed" ∧
      ¬ invoked (runOrderWorkflow order env) StepName.processOrder ∧
      ¬ invoked (runOrderWorkflow order env) StepName.notifyOrderComplete := by
  constructor
  · intro order env r h
    unfold paymentStepResult at h
    rcases hb : paymentBranch env with _ | _ <;> rw [hb] at h <;>
      · simp only [PaymentWorkflow, callProcessPayment] at h
        rcases hp : env.paymentActivity with eo | n <;> rw [hp] at h
        · exact absurd h (by simp)
        · simp only [ProcessPayment, Except.ok.injEq] at h
          rw [← h]
  · intro order env v e hq hv hvalid hc1 hfail
    have hrun : runOrderWorkflow order env =
        ⟨.error e,
          { orderID := order.id, status := StatusFailed, stage := StagePayment,
            isExpedited := setBy env.expediteArrival 2, paymentStatus := "failed" },
          [Event.mutate Field.status, Event.mutate Field.stage, Event.touch,
           Event.invoke StepName.validateOrder] ++ expediteHandlerEvents env.expediteArrival 1
            ++ ([Event.mutate Field.stage, Event.touch,
                 Event.invoke (paymentStepName (paymentBranch env))]
                ++ expediteHandlerEvents env.expediteArrival 2)
            ++ [Event.mutate Field.status, Event.mutate Field.paymentStatus, Event.touch],
          none⟩ := by
      simp [runOrderWorkflow, hq, hv, hvalid, hc1, setBy_zero, hfail]
    rw [hrun]
    refine ⟨rfl, rfl, rfl, ?_, ?_⟩ <;>
      · simp only [invoked]
        cases paymentBranch env <;>
          simp [paymentStepName, invoke_not_mem_expediteHandlerEvents]

/-- An environment whose payment step fails. -/
def payFailEnv : Env := { happyEnv with paymentActivity := .error "payment timeout" }

/-- Witness for C2 at a concrete order and environment. -/
theorem claim2_payment_failure_is_fatal_witness :
    (runOrderWorkflow sampleOrder payFailEnv).result = .error "payment timeout" ∧
    (runOrderWorkflow sampleOrder payFailEnv).state.status = StatusFailed ∧
    (runOrderWorkflow sampleOrder payFailEnv).state.paymentStatus = "failed" ∧
    ¬ invoked (runOrderWorkflow sampleOrder payFailEnv) StepName.processOrder ∧
    ¬ invoked (runOrderWorkflow sampleOrder payFailEnv) StepName.notifyOrderComplete :=
  claim2_payment_failure_is_fatal.2 sampleOrder payFailEnv okValidation "payment timeout"
    rfl rfl rfl rfl rfl

/-- When the underlying payment activity runs, the payment stage
delivers its (always successful) response, on either branch. -/
theorem paymentStepResult_of_ok (order : Order) (env : Env) (n : Nat)
    (hp : env.paymentActivity = .ok n) :
    paymentStepResult order env =
      .ok { success := true
            transactionID := "TXN-" ++ order.id ++ "-" ++ toString n
            message := "Payment processed successfully" } := by
  unfold paymentStepResult
  cases paymentBranch env <;>
    simp [PaymentWorkflow, callProcessPayment, ProcessPayment, hp]

/-- The outcome of `NotifyOrderComplete` influences nothing the
workflow does: every component of the execution's observable result is
the same whatever the notification step returns. -/
theorem runOrderWorkflow_notify_irrelevant (order : Order) (env : Env)
    (nt : Except String Unit) :
    runOrderWorkflow order { env with notify := nt } = runOrderWorkflow order env := by
  obtain ⟨qr, val, pay, ful, nt0, rv, ca, ea⟩ := env
  simp only [runOrderWorkflow, paymentStepResult, paymentBranch, paymentStepName,
    resolveVersion, PaymentWorkflow, callProcessPayment]
  repeat' split
  all_goals rfl

/-- C8: once an execution reaches the notification step, a failure of
`NotifyOrderComplete` does not fail the saga: the workflow still
returns success, the final projection shows status completed and stage
completed, and the outcome is identical to the one with a successful
notification. -/
theorem claim8_notification_is_best_effort (order : Order) (env : Env)
    (v : ValidationResponse) (n : Nat)
    (hq : env.queryReg = .ok ())
    (hv : env.validation = .ok v)
    (hvalid : v.valid = true)
    (hc1 : setBy env.cancelArrival 1 = false)
    (hp : env.paymentActivity = .ok n)
    (hc2 : setBy env.cancelArrival 2 = false)
    (hf : env.fulfill = .ok ()) :
    invoked (runOrderWorkflow order env) StepName.notifyOrderComplete ∧
    (runOrderWorkflow order env).result = .ok () ∧
    (runOrderWorkflow order env).state.status = StatusCompleted ∧
    (runOrderWorkflow order env).state.stage = StageCompleted ∧
    runOrderWorkflow order env = runOrderWorkflow order { env with notify := .ok () } := by
  have hpay := paymentStepResult_of_ok order env n hp
  refine ⟨?_, ?_, ?_, ?_, (runOrderWorkflow_notify_irrelevant order env (.ok ())).symm⟩ <;>
    rcases hnt : env.notify with e | u <;>
      simp [invoked, runOrderWorkflow, hq, hv, hvalid, hc1, hc2, setBy_zero, hpay, hf, hnt]

/-- Witness for C8: notification fails, the saga still completes. -/
theorem claim8_notification_is_best_effort_witness :
    invoked (runOrderWorkflow sampleOrder { happyEnv with notify := .error "smtp down" })
        StepName.notifyOrderComplete ∧
    (runOrderWorkflow sampleOrder { happyEnv with notify := .error "smtp down" }).result
        = .ok () ∧
    (runOrderWorkflow sampleOrder { happyEnv with notify := .error "smtp down" }).state.status
        = StatusCompleted ∧
    (runOrderWorkflow sampleOrder { happyEnv with notify := .error "smtp down" }).state.stage
        = StageCompleted ∧
    runOrderWorkflow sampleOrder { happyEnv with notify := .error "smtp down" } =
      runOrderWorkflow sampleOrder
        { { happyEnv with notify := .error "smtp down" } with notify := .ok () } :=
  claim8_notification_is_best_effort sampleOrder { happyEnv with notify := .error "smtp down" }
    okValidation 5 rfl rfl rfl rfl rfl rfl rfl

/-- C1: the version gate at the `payment-processing-change` decision
point is deterministic across replay: with no marker it records and
returns the latest (child-workflow) branch; with a marker it returns
the recorded branch regardless of the running code's latest.  Hence an
instance whose history recorded the legacy branch never starts the
child workflow on replay and, whenever its execution reaches the
payment stage, takes the direct-activity path again, while a fresh
instance takes the child-workflow path. -/
theorem claim1_version_gate_replay_determinism :
    (∀ latest, resolveVersion none latest = (latest, some latest)) ∧
    (∀ recorded latest, resolveVersion (some recorded) latest = (recorded, some recorded)) ∧
    (∀ (order : Order) (env : Env), env.recordedVersion = some Branch.legacy →
        ¬ invoked (runOrderWorkflow order env) StepName.paymentChildWorkflow) ∧
    (∀ (order : Order) (env : Env) (v : ValidationResponse),
        env.recordedVersion = some Branch.legacy →
        env.queryReg = .ok () → env.validation = .ok v → v.valid = true →
        setBy env.cancelArrival 1 = false →
        invoked (runOrderWorkflow order env) StepName.processPaymentActivity) ∧
    ∀ (order : Order) (env : Env) (v : ValidationResponse),
      env.recordedVersion = none →
      env.queryReg = .ok () → env.validation = .ok v → v.valid = true →
      setBy env.cancelArrival 1 = false →
      invoked (runOrderWorkflow order env) StepName.paymentChildWorkflow ∧
      ¬ invoked (runOrderWorkflow order env) StepName.processPaymentActivity := by
  refine ⟨fun latest => rfl, fun recorded latest => rfl, ?_, ?_, ?_⟩
  · intro order env hrv
    simp only [runOrderWorkflow, paymentStepName, paymentBranch, hrv, resolveVersion]
    repeat' split
    all_goals simp [invoked, invoke_not_mem_expediteHandlerEvents]
  · intro order env v hrv hq hv hvalid hc1
    simp only [runOrderWorkflow, paymentStepName, paymentBranch, hrv, resolveVersion,
      hq, hv, hvalid, setBy_zero, hc1, Bool.not_true, Bool.false_eq_true, if_false]
    repeat' split
    all_goals simp [invoked, invoke_not_mem_expediteHandlerEvents]
  · intro order env v hrv hq hv hvalid hc1
    simp only [runOrderWorkflow, paymentStepName, paymentBranch, hrv, resolveVersion,
      hq, hv, hvalid, setBy_zero, hc1, Bool.not_true, Bool.false_eq_true, if_false]
    repeat' split
    all_goals simp [invoked, invoke_not_mem_expediteHandlerEvents]

/-- Witness for C1: a replayed instance with a legacy marker takes the
direct-activity path even though the deployed default is the
child-workflow branch, and a fresh instance takes the child-workflow
path. -/
theorem claim1_version_gate_replay_determinism_witness :
    (¬ invoked (runOrderWorkflow sampleOrder
        { happyEnv with recordedVersion := some Branch.legacy })
        StepName.paymentChildWorkflow) ∧
    invoked (runOrderWorkflow sampleOrder
        { happyEnv with recordedVersion := some Branch.legacy })
        StepName.processPaymentActivity ∧
    invoked (runOrderWorkflow sampleOrder happyEnv) StepName.paymentChildWorkflow :=
  ⟨claim1_version_gate_replay_determinism.2.2.1 sampleOrder
      { happyEnv with recordedVersion := some Branch.legacy } rfl,
   claim1_version_gate_replay_determinism.2.2.2.1 sampleOrder
      { happyEnv with recordedVersion := some Branch.legacy } okValidation rfl rfl rfl rfl rfl,
   (claim1_version_gate_replay_determinism.2.2.2.2 sampleOrder happyEnv okValidation
      rfl rfl rfl rfl rfl).1⟩

/-- C4: if a cancel signal has been received by the time a cancellation
checkpoint is reached, the saga transitions to status cancelled and
stops without starting the next step: at the post-validation checkpoint
no payment, fulfillment or notification step is started, and at the
post-payment checkpoint no fulfillment or notification step is started.
In particular a cancel sent before validation starts (in time for the
first suspension) yields final status cancelled with the payment and
fulfillment steps never invoked.  (The pre-validation checkpoint can
never observe a received cancel — see C10 — so its clause holds
trivially.) -/
theorem claim4_cancel_checkpoints_stop_the_saga :
    (∀ (order : Order) (env : Env) (v : ValidationResponse),
        env.queryReg = .ok () → env.validation = .ok v → v.valid = true →
        setBy env.cancelArrival 1 = true →
        (runOrderWorkflow order env).result = .ok () ∧
        (runOrderWorkflow order env).state.status = StatusCancelled ∧
        ¬ invoked (runOrderWorkflow order env) StepName.processPaymentActivity ∧
        ¬ invoked (runOrderWorkflow order env) StepName.paymentChildWorkflow ∧
        ¬ invoked (runOrderWorkflow order env) StepName.processOrder ∧
        ¬ invoked (runOrderWorkflow order env) StepName.notifyOrderComplete) ∧
    (∀ (order : Order) (env : Env) (v : ValidationResponse) (n : Nat),
        env.queryReg = .ok () → env.validation = .ok v → v.valid = true →
        env.paymentActivity = .ok n →
        setBy env.cancelArrival 2 = true →
        (runOrderWorkflow order env).result = .ok () ∧
        (runOrderWorkflow order env).state.status = StatusCancelled ∧
        ¬ invoked (runOrderWorkflow order env) StepName.processOrder ∧
        ¬ invoked (runOrderWorkflow order env) StepName.notifyOrderComplete) ∧
    ∀ (order : Order) (env : Env) (v : ValidationResponse),
      env.cancelArrival = some 0 →
      env.queryReg = .ok () → env.validation = .ok v → v.valid = true →
      (runOrderWorkflow order env).result = .ok () ∧
      (runOrderWorkflow order env).state.status = StatusCancelled ∧
      ¬ invoked (runOrderWorkflow order env) StepName.processPaymentActivity ∧
      ¬ invoked (runOrderWorkflow order env) StepName.paymentChildWorkflow ∧
      ¬ invoked (runOrderWorkflow order env) StepName.processOrder := by
  refine ⟨?_, ?_, ?_⟩
  · intro order env v hq hv hvalid hc1
    simp [runOrderWorkflow, hq, hv, hvalid, setBy_zero, hc1, invoked,
      invoke_not_mem_expediteHandlerEvents]
  · intro order env v n hq hv hvalid hp hc2
    have hpay := paymentStepResult_of_ok order env n hp
    by_cases hc1 : setBy env.cancelArrival 1 = true
    · simp [runOrderWorkflow, hq, hv, hvalid, setBy_zero, hc1, invoked,
        invoke_not_mem_expediteHandlerEvents]
    · have hc1' : setBy env.cancelArrival 1 = false := by
        simpa using hc1
      simp [runOrderWorkflow, hq, hv, hvalid, setBy_zero, hc1', hpay, hc2, invoked,
        invoke_not_mem_expediteHandlerEvents, processOrder_ne_paymentStepName,
        notify_ne_paymentStepName]
  · intro order env v hca hq hv hvalid
    have hc1 : setBy env.cancelArrival 1 = true := by
      simp [setBy, hca]
    simp [runOrderWorkflow, hq, hv, hvalid, setBy_zero, hc1, invoked,
      invoke_not_mem_expediteHandlerEvents]

/-- Witness for C4: cancel delivered before validation starts yields a
cancelled saga with no payment or fulfillment step invoked. -/
theorem claim4_cancel_checkpoints_stop_the_saga_witness :
    (runOrderWorkflow sampleOrder { happyEnv with cancelArrival := some 0 }).result = .ok () ∧
    (runOrderWorkflow sampleOrder { happyEnv with cancelArrival := some 0 }).state.status
        = StatusCancelled ∧
    ¬ invoked (runOrderWorkflow sampleOrder { happyEnv with cancelArrival := some 0 })
        StepName.processPaymentActivity ∧
    ¬ invoked (runOrderWorkflow sampleOrder { happyEnv with cancelArrival := some 0 })
        StepName.paymentChildWorkflow ∧
    ¬ invoked (runOrderWorkflow sampleOrder { happyEnv with cancelArrival := some 0 })
        StepName.processOrder :=
  claim4_cancel_checkpoints_stop_the_saga.2.2 sampleOrder
    { happyEnv with cancelArrival := some 0 } okValidation rfl rfl rfl rfl

/-- C6: the fulfillment step is invoked with the expedite flag as it
stands when the step starts: an expedite signal consumed by the end of
the payment suspension (hence before fulfillment starts) makes the step
observe `true`; a signal that arrives only once fulfillment is under
way (during suspension 3 or later) leaves the already-started
invocation's argument `false`, even though the projection's flag still
becomes `true`. -/
theorem claim6_expedite_flag_read_at_step_start (order : Order) (env : Env)
    (v : ValidationResponse) (n : Nat)
    (hq : env.queryReg = .ok ())
    (hv : env.validation = .ok v)
    (hvalid : v.valid = true)
    (hc1 : setBy env.cancelArrival 1 = false)
    (hp : env.paymentActivity = .ok n)
    (hc2 : setBy env.cancelArrival 2 = false) :
    (setBy env.expediteArrival 2 = true →
        (runOrderWorkflow order env).processOrderArg = some true) ∧
    (∀ j, env.expediteArrival = some j → 2 ≤ j →
        (runOrderWorkflow order env).processOrderArg = some false) ∧
    (env.expediteArrival = some 2 → env.fulfill = .ok () →
        (runOrderWorkflow order env).processOrderArg = some false ∧
        (runOrderWorkflow order env).state.isExpedited = true) := by
  have hpay := paymentStepResult_of_ok order env n hp
  have harg : (runOrderWorkflow order env).processOrderArg
      = some (setBy env.expediteArrival 2) := by
    rcases hf : env.fulfill with e | u <;> rcases hnt : env.notify with e' | u' <;>
      simp [runOrderWorkflow, hq, hv, hvalid, setBy_zero, hc1, hpay, hc2, hf, hnt]
  refine ⟨?_, ?_, ?_⟩
  · intro h2
    rw [harg, h2]
  · intro j hj h2j
    rw [harg, hj]
    simp only [setBy, Option.some.injEq]
    simp
    omega
  · intro hea hf
    have hstate : (runOrderWorkflow order env).state.isExpedited
        = setBy env.expediteArrival 4 := by
      rcases hnt : env.notify with e' | u' <;>
        simp [runOrderWorkflow, hq, hv, hvalid, setBy_zero, hc1, hpay, hc2, hf, hnt]
    refine ⟨?_, ?_⟩
    · rw [harg, hea]
      simp [setBy]
    · rw [hstate, hea]
      simp [setBy]

/-- Witness for C6: expedite delivered during the payment suspension is
observed by fulfillment; delivered during the fulfillment suspension it
is not, though the projection's flag still ends up set. -/
theorem claim6_expedite_flag_read_at_step_start_witness :
    (runOrderWorkflow sampleOrder { happyEnv with expediteArrival := some 1 }).processOrderArg
        = some true ∧
    (runOrderWorkflow sampleOrder { happyEnv with expediteArrival := some 2 }).processOrderArg
        = some false ∧
    (runOrderWorkflow sampleOrder
        { happyEnv with expediteArrival := some 2 }).state.isExpedited = true :=
  ⟨(claim6_expedite_flag_read_at_step_start sampleOrder
      { happyEnv with expediteArrival := some 1 } okValidation 5
      rfl rfl rfl rfl rfl rfl).1 (by decide),
   ((claim6_expedite_flag_read_at_step_start sampleOrder
      { happyEnv with expediteArrival := some 2 } okValidation 5
      rfl rfl rfl rfl rfl rfl).2.2 rfl rfl).1,
   ((claim6_expedite_flag_read_at_step_start sampleOrder
      { happyEnv with expediteArrival := some 2 } okValidation 5
      rfl rfl rfl rfl rfl rfl).2.2 rfl rfl).2⟩

/-- C10: when query-handler registration succeeds, validation is always
invoked: no suspension point lies between registering the signal
handlers and the pre-validation cancellation check, so a handler cannot
have run yet, the first checkpoint never observes a received cancel
signal, and the saga never terminates as cancelled before invoking
`ValidateOrder`. -/
theorem claim10_first_checkpoint_never_cancels (order : Order) (env : Env)
    (hq : env.queryReg = .ok ()) :
    setBy env.cancelArrival 0 = false ∧
    invoked (runOrderWorkflow order env) StepName.validateOrder := by
  refine ⟨setBy_zero _, ?_⟩
  obtain ⟨qr, val, pay, ful, nt, rv, ca, ea⟩ := env
  simp only at hq
  subst hq
  simp only [runOrderWorkflow, setBy_zero, Bool.false_eq_true, if_false]
  repeat' split
  all_goals simp [invoked]

/-- Witness for C10: with registration succeeding and a cancel signal
already pending at start, validation is still invoked. -/
theorem claim10_first_checkpoint_never_cancels_witness :
    setBy ({ happyEnv with cancelArrival := some 0 } : Env).cancelArrival 0 = false ∧
    invoked (runOrderWorkflow sampleOrder { happyEnv with cancelArrival := some 0 })
      StepName.validateOrder :=
  claim10_first_checkpoint_never_cancels sampleOrder
    { happyEnv with cancelArrival := some 0 } rfl

/-- C5: a validation call that completes successfully but reports the
order invalid is a hard business failure: the projection goes to status
failed, the workflow returns an error carrying the validation message,
no payment step of either branch (and no fulfillment) is ever invoked,
and the step is not retried — a 200 response consumes exactly one
attempt whatever its `valid` field.  A transport-level failure or
non-200 response is instead an activity error, retried under the
step's RetryPolicy (a second attempt follows a failed first one) and
surfaced unmodified once the three attempts are exhausted.  The
external collaborator, modelled from the spec, reports invalid for
every amount at or above the rejection threshold. -/
theorem claim5_rejection_is_terminal_transport_is_retried :
    (∀ (order : Order) (env : Env) (v : ValidationResponse),
        env.queryReg = .ok () → env.validation = .ok v → v.valid = false →
        (runOrderWorkflow order env).result
            = .error ("order validation failed: " ++ v.message) ∧
        (runOrderWorkflow order env).state.status = StatusFailed ∧
        ¬ invoked (runOrderWorkflow order env) StepName.processPaymentActivity ∧
        ¬ invoked (runOrderWorkflow order env) StepName.paymentChildWorkflow ∧
        ¬ invoked (runOrderWorkflow order env) StepName.processOrder) ∧
    (∀ (http : Nat → HttpOutcome) (body : ValidationResponse) (raw : String),
        http 0 = HttpOutcome.response 200 body raw →
        runValidationStep http = (.ok body, 1)) ∧
    (∀ (statusCode : Nat) (body : ValidationResponse) (raw : String), statusCode ≠ 200 →
        validateOrderActivity (.response statusCode body raw)
          = .error ("validation service returned status " ++ toString statusCode ++ ": "
              ++ raw)) ∧
    (∀ (http : Nat → HttpOutcome) (m : String),
        http 0 = HttpOutcome.transportError m →
        2 ≤ (runValidationStep http).2) ∧
    (∀ (http : Nat → HttpOutcome) (m0 m1 m2 : String),
        http 0 = HttpOutcome.transportError m0 →
        http 1 = HttpOutcome.transportError m1 →
        http 2 = HttpOutcome.transportError m2 →
        runValidationStep http
          = (.error ("failed to call validation service: " ++ m2), 3)) ∧
    ∀ threshold amount : Int, threshold ≤ amount →
      (specValidate threshold amount).valid = false ∧
      (specValidate threshold amount).message = "Amount exceeds maximum allowed" := by
  refine ⟨?_, ?_, ?_, ?_, ?_, ?_⟩
  · intro order env v hq hv hinvalid
    simp [runOrderWorkflow, hq, hv, hinvalid, setBy_zero, invoked,
      invoke_not_mem_expediteHandlerEvents]
  · intro http body raw h0
    have h0' : validateOrderActivity (http 0) = .ok body := by
      simp [h0, validateOrderActivity]
    simp [runValidationStep, executeWithRetry, runAttempts, h0']
  · intro statusCode body raw hst
    simp [validateOrderActivity, hst]
  · intro http m h0
    have h0' : validateOrderActivity (http 0)
        = .error ("failed to call validation service: " ++ m) := by
      simp [h0, validateOrderActivity]
    simp only [runValidationStep, executeWithRetry, runAttempts, h0']
    rcases hv1 : validateOrderActivity (http 1) with e1 | v1
    · simp only [runAttempts, hv1]
      rcases hv2 : validateOrderActivity (http 2) with e2 | v2 <;> simp [runAttempts, hv2]
    · simp [runAttempts, hv1]
  · intro http m0 m1 m2 h0 h1 h2
    have h0' : validateOrderActivity (http 0)
        = .error ("failed to call validation service: " ++ m0) := by
      simp [h0, validateOrderActivity]
    have h1' : validateOrderActivity (http 1)
        = .error ("failed to call validation service: " ++ m1) := by
      simp [h1, validateOrderActivity]
    have h2' : validateOrderActivity (http 2)
        = .error ("failed to call validation service: " ++ m2) := by
      simp [h2, validateOrderActivity]
    simp [runValidationStep, executeWithRetry, runAttempts, h0', h1', h2']
  · intro threshold amount hle
    simp [specValidate, hle]

/-- The validation response the collaborator returns for an
over-threshold order. -/
def rejValidation : ValidationResponse :=
  { valid := false, message := "Amount exceeds maximum allowed" }

/-- An environment in which validation reports the order invalid. -/
def rejEnv : Env := { happyEnv with validation := .ok rejValidation }

/-- An HTTP schedule on which every validation attempt fails at the
transport level. -/
def failHttp : Nat → HttpOutcome :=
  fun _ => HttpOutcome.transportError "connection refused"

/-- An HTTP schedule on which the first validation attempt returns a
200 rejection. -/
def rejHttp : Nat → HttpOutcome :=
  fun _ => HttpOutcome.response 200 rejValidation "body"

/-- Witness for C5 at concrete inputs. -/
theorem claim5_rejection_is_terminal_transport_is_retried_witness :
    (runOrderWorkflow sampleOrder rejEnv).result
        = .error ("order validation failed: " ++ rejValidation.message) ∧
    (runOrderWorkflow sampleOrder rejEnv).state.status = StatusFailed ∧
    ¬ invoked (runOrderWorkflow sampleOrder rejEnv) StepName.processPaymentActivity ∧
    ¬ invoked (runOrderWorkflow sampleOrder rejEnv) StepName.paymentChildWorkflow ∧
    runValidationStep rejHttp = (.ok rejValidation, 1) ∧
    2 ≤ (runValidationStep failHttp).2 ∧
    runValidationStep failHttp
      = (.error ("failed to call validation service: " ++ "connection refused"), 3) ∧
    (specValidate 10000 15000).valid = false :=
  ⟨(claim5_rejection_is_terminal_transport_is_retried.1 sampleOrder rejEnv rejValidation
      rfl rfl rfl).1,
   (claim5_rejection_is_terminal_transport_is_retried.1 sampleOrder rejEnv rejValidation
      rfl rfl rfl).2.1,
   (claim5_rejection_is_terminal_transport_is_retried.1 sampleOrder rejEnv rejValidation
      rfl rfl rfl).2.2.1,
   (claim5_rejection_is_terminal_transport_is_retried.1 sampleOrder rejEnv rejValidation
      rfl rfl rfl).2.2.2.1,
   claim5_rejection_is_terminal_transport_is_retried.2.1 rejHttp rejValidation "body" rfl,
   claim5_rejection_is_terminal_transport_is_retried.2.2.2.1 failHttp "connection refused" rfl,
   claim5_rejection_is_terminal_transport_is_retried.2.2.2.2.1 failHttp
     "connection refused" "connection refused" "connection refused" rfl rfl rfl,
   (claim5_rejection_is_terminal_transport_is_retried.2.2.2.2.2 10000 15000
      (by decide)).1⟩

/-- The expedite handler's event block is itself timestamp-disciplined
and leaves no mutation pending. -/
theorem timestampDisciplined_expediteHandlerEvents (a : Option Nat) (k : Nat)
    (rest : List Event) :
    timestampDisciplined false (expediteHandlerEvents a k ++ rest)
      = timestampDisciplined false rest := by
  rcases a with _ | j
  · simp [expediteHandlerEvents]
  · simp only [expediteHandlerEvents]
    split <;> simp [timestampDisciplined]

/-- C3: in every execution, every projection mutation is followed by an
update of the `LastUpdated` timestamp before the workflow reaches its
next suspension point or terminates. -/
theorem claim3_every_mutation_is_timestamped (order : Order) (env : Env) :
    timestampDisciplined false (runOrderWorkflow order env).trace = true := by
  obtain ⟨qr, val, pay, ful, nt, rv, ca, ea⟩ := env
  simp only [runOrderWorkflow, paymentStepResult, paymentBranch, paymentStepName,
    resolveVersion, PaymentWorkflow, callProcessPayment, ProcessPayment]
  repeat' split
  all_goals
    simp [timestampDisciplined, timestampDisciplined_expediteHandlerEvents,
      List.append_assoc, List.cons_append, List.nil_append]

end OrderProcessing
